import Mathlib

/-!
Shallow embedding of the confidence-gated answer-assembly core of the
chatbot backend: the excerpt cleaner, the keyword retriever and the two
grounded-response assemblers (smart demo server and production server),
together with theorems settling the specification claims.

String processing follows the Python source over ASCII data: lowering,
stripping, slicing and the concrete regular-expression substitutions of
`clean_content` are implemented as explicit character-list transformations.
-/

namespace Chatbot

/-! ## Python-style string primitives (ASCII semantics, as used by the source) -/

def isPySpace (c : Char) : Bool :=
  c == ' ' || c == '\t' || c == '\n' || c == '\x0d' || c == '\x0c' || c == '\x0b'

def isWordCharB (c : Char) : Bool := c.isAlpha || c.isDigit || c == '_'

def toLowerL (l : List Char) : List Char := l.map Char.toLower

def pyLower (s : String) : String := ⟨toLowerL s.data⟩

def stripL (l : List Char) : List Char :=
  ((l.dropWhile isPySpace).reverse.dropWhile isPySpace).reverse

def pyStrip (s : String) : String := ⟨stripL s.data⟩

def pyTakeS (n : Nat) (s : String) : String := ⟨s.data.take n⟩

def startsL : List Char → List Char → Bool
  | [], _ => true
  | _ :: _, [] => false
  | p :: ps, c :: cs => p == c && startsL ps cs

def endsL (p l : List Char) : Bool := startsL p.reverse l.reverse

def containsSub (p : List Char) : List Char → Bool
  | [] => p.isEmpty
  | c :: cs => startsL p (c :: cs) || containsSub p cs

def pyIn (needle hay : String) : Bool := containsSub needle.data hay.data

def afterLit : List Char → List Char → Option (List Char)
  | [], l => some l
  | _ :: _, [] => none
  | p :: ps, c :: cs => if p == c then afterLit ps cs else none

/-- Case-insensitive literal match; the pattern is given in lower case. -/
def afterLitCI : List Char → List Char → Option (List Char)
  | [], l => some l
  | _ :: _, [] => none
  | p :: ps, c :: cs => if p == c.toLower then afterLitCI ps cs else none

def replaceF (fuel : Nat) (pat rep : List Char) (l : List Char) : List Char :=
  match fuel, l with
  | 0, l => l
  | _, [] => []
  | fuel + 1, c :: cs =>
    match afterLit pat (c :: cs) with
    | some rest => rep ++ replaceF fuel pat rep rest
    | none => c :: replaceF fuel pat rep cs

def pyReplace (s pat rep : String) : String :=
  ⟨replaceF (s.data.length + 1) pat.data rep.data s.data⟩

def anyKw (ws : List String) (hay : String) : Bool := ws.any fun w => pyIn w hay

/-! ## Scanners for the `re.sub` passes of `clean_content`

Each matcher is tried at every position, left to right and non-overlapping,
exactly like `re.sub`; a matcher returns the replacement text and the rest of
the input after the matched region.  Every matcher consumes at least one
character, so fuel equal to the input length suffices. -/

def scanRep (fuel : Nat) (m : List Char → Option (List Char × List Char))
    (l : List Char) : List Char :=
  match fuel, l with
  | 0, l => l
  | _, [] => []
  | fuel + 1, c :: cs =>
    match m (c :: cs) with
    | some (rep, rest) => rep ++ scanRep fuel m rest
    | none => c :: scanRep fuel m cs

/-- Scanner for the `re.MULTILINE` patterns anchored at the line start: the
matcher is only tried at line starts; it reports whether the matched region
ends with a newline (so that the following position is itself a line start). -/
def scanLS (fuel : Nat) (m : List Char → Option (List Char × Bool))
    (atLS : Bool) (l : List Char) : List Char :=
  match fuel, l with
  | 0, l => l
  | _, [] => []
  | fuel + 1, c :: cs =>
    if atLS then
      match m (c :: cs) with
      | some (rest, ls2) => scanLS fuel m ls2 rest
      | none => c :: scanLS fuel m (c == '\n') cs
    else c :: scanLS fuel m (c == '\n') cs

def wsSplit (l : List Char) : List Char × List Char :=
  (l.takeWhile isPySpace, l.dropWhile isPySpace)

/-- Rest of the input after the first occurrence of a blank line, i.e. after
a lazy match of anything up to and including two consecutive newlines. -/
def after2NL : List Char → Option (List Char)
  | [] => none
  | '\n' :: '\n' :: rest => some rest
  | _ :: rest => after2NL rest

/-- Rest of the input after the first newline. -/
def afterNL : List Char → Option (List Char)
  | [] => none
  | '\n' :: rest => some rest
  | _ :: rest => afterNL rest

/-- Lookahead of the pattern fragment matching a newline followed by an
upper-case letter, a blank line, or the end of the string (where the end also
matches just before a single trailing newline, as for an unanchored Python
dollar). -/
def stopUC : List Char → Bool
  | [] => true
  | ['\n'] => true
  | '\n' :: d :: _ => d == '\n' || d.isUpper
  | _ => false

/-- Same lookahead under `re.IGNORECASE`, where the letter class matches any
letter. -/
def stopAlpha : List Char → Bool
  | [] => true
  | ['\n'] => true
  | '\n' :: d :: _ => d == '\n' || d.isAlpha
  | _ => false

/-- Lazy scan: the suffix starting at the first position satisfying `p`. -/
def lazyTo (p : List Char → Bool) : List Char → List Char
  | [] => []
  | c :: cs => if p (c :: cs) then c :: cs else lazyTo p cs

/-- Characters before the first position satisfying `p` (the lazily matched
group). -/
def groupTo (p : List Char → Bool) : List Char → List Char
  | [] => []
  | c :: cs => if p (c :: cs) then [] else c :: groupTo p cs

namespace SmartDemo

/-- Matcher for removing a metadata block: the given header literal, lazily
anything (including newlines), up to and including the first blank line. -/
def mMetaBlock (header : String) (l : List Char) : Option (List Char × List Char) :=
  (afterLit header.data l).bind fun r => (after2NL r).map fun rest => ([], rest)

/-- Matcher for removing a label and the whitespace run following it. -/
def mLabelWS (l : List Char) : Option (List Char × List Char) :=
  (afterLit "Content:".data l).map fun r => ([], r.dropWhile isPySpace)

/-- Matcher for removing a header literal and the rest of its line, newline
included. -/
def mToLineEnd (l : List Char) : Option (List Char × List Char) :=
  (afterLit "On this page:".data l).bind fun r => (afterNL r).map fun rest => ([], rest)

/-- Matcher for the line-start bullet pattern: optional whitespace, a bullet
character, optional whitespace.  Returns the rest of the input and whether the
consumed region ends with a newline. -/
def mBullet (l : List Char) : Option (List Char × Bool) :=
  let (_, r1) := wsSplit l
  match r1 with
  | b :: r2 =>
    if b == '-' || b == '•' then
      let (ws2, r3) := wsSplit r2
      some (r3, (ws2.reverse.headD ' ') == '\n')
    else none
  | [] => none

/-- Matcher for the line-start numbering pattern: optional whitespace, one or
more digits, a dot, optional whitespace. -/
def mNumbering (l : List Char) : Option (List Char × Bool) :=
  let (_, r1) := wsSplit l
  let ds := r1.takeWhile Char.isDigit
  let r2 := r1.dropWhile Char.isDigit
  if ds.isEmpty then none
  else
    match r2 with
    | '.' :: r3 =>
      let (ws2, r4) := wsSplit r3
      some (r4, (ws2.reverse.headD ' ') == '\n')
    | _ => none

/-- Matcher for the case-insensitive removal of a line starting at the
product-name literal: the literal, any non-newline characters, and the
terminating newline. -/
def mCoreDnaLine (l : List Char) : Option (List Char × List Char) :=
  (afterLitCI "core dna".data l).bind fun r =>
    match r.dropWhile (fun c => !(c == '\n')) with
    | '\n' :: rest => some ([], rest)
    | _ => none

/-- Matcher deleting from the literal to the end of the string (greedy
dot-all match followed by the end anchor). -/
def mImplToEnd (l : List Char) : Option (List Char × List Char) :=
  (afterLit "Implementation Example".data l).map fun _ => ([], [])

/-- Matcher deleting the literal and a lazy dot-all match up to the lookahead
for a newline-plus-capital, a blank line, or the end. -/
def mPractical (l : List Char) : Option (List Char × List Char) :=
  (afterLit "Practical Use Case:".data l).map fun r => ([], lazyTo stopUC r)

/-- Matcher collapsing a whitespace run containing at least three newlines:
the match runs from its first through its last newline and is replaced by a
blank line. -/
def mTripleNL (l : List Char) : Option (List Char × List Char) :=
  match l with
  | '\n' :: _ =>
    let (run, rest) := wsSplit l
    if 3 ≤ run.countP (fun c => c == '\n') then
      let tail2 := (run.reverse.takeWhile (fun c => !(c == '\n'))).reverse
      some ("\n\n".data, tail2 ++ rest)
    else none
  | _ => none

/-- Matcher collapsing any whitespace run to a single space. -/
def mWSRun (l : List Char) : Option (List Char × List Char) :=
  match l with
  | c :: _ =>
    if isPySpace c then
      let (_, rest) := wsSplit l
      some ([' '], rest)
    else none
  | [] => none

/-- The ordered substitution pipeline of `clean_content`: metadata blocks,
labels, list markers, product-name lines, trailing sections, and whitespace
normalisation, in the order of the source. -/
def cleanPhaseL (l : List Char) : List Char :=
  let s1 := scanRep (l.length + 1) (mMetaBlock "Page Title:") l
  let s2 := scanRep (s1.length + 1) (mMetaBlock "Key Sections:") s1
  let s3 := scanRep (s2.length + 1) mLabelWS s2
  let s4 := scanRep (s3.length + 1) mToLineEnd s3
  let s5 := scanLS (s4.length + 1) mBullet true s4
  let s6 := scanLS (s5.length + 1) mNumbering true s5
  let s7 := scanRep (s6.length + 1) mCoreDnaLine s6
  let s8 := scanRep (s7.length + 1) mImplToEnd s7
  let s9 := scanRep (s8.length + 1) mPractical s8
  let s10 := scanRep (s9.length + 1) mTripleNL s9
  scanRep (s10.length + 1) mWSRun s10

def isSentSep (c : Char) : Bool := c == '.' || c == '!' || c == '?'

/-- Split on maximal runs of sentence separators, keeping empty pieces,
like `re.split` with a one-or-more separator class. -/
def splitSentF (fuel : Nat) (cur : List Char) (l : List Char) : List (List Char) :=
  match fuel, l with
  | 0, _ => [cur.reverse]
  | _, [] => [cur.reverse]
  | fuel + 1, c :: cs =>
    if isSentSep c then cur.reverse :: splitSentF fuel [] (cs.dropWhile isSentSep)
    else splitSentF fuel (c :: cur) cs

def splitSent (l : List Char) : List (List Char) := splitSentF (l.length + 1) [] l

def informativeWords : List String :=
  ["provides", "offers", "enables", "helps", "allows", "supports", "platform",
   "solution", "business", "customer", "ecommerce", "commerce", "management",
   "integration", "feature"]

def bannedStarts : List String :=
  ["Page Title", "Key Sections", "On this page", "Implementation Example", "No FAQ"]

/-- A non-empty line consisting only of capitals and whitespace (the
heading-like pattern rejected by the sentence filter). -/
def allCapsWS (l : List Char) : Bool :=
  !l.isEmpty && l.all fun c => c.isUpper || isPySpace c

/-- The usefulness test applied to each stripped sentence. -/
def usefulSent (s : List Char) : Bool :=
  decide (30 < s.length) &&
  !(bannedStarts.any fun b => startsL b.data s) &&
  !allCapsWS s &&
  !endsL "Core dna".data s &&
  (informativeWords.any fun w => containsSub w.data (toLowerL s))

def usefulSentences (l : List Char) : List (List Char) :=
  (((splitSent l).map stripL).filter usefulSent)

def joinDotSp : List (List Char) → List Char
  | [] => []
  | [x] => x
  | x :: xs => x ++ '.' :: ' ' :: joinDotSp xs

/-- Join the first three useful sentences and guarantee a final period. -/
def joinUseful (us : List (List Char)) : List Char :=
  let r := joinDotSp (us.take 3)
  if endsL ['.'] r then r else r ++ ['.']

/-- Search for a labeled description section: the case-insensitive label, one
or more whitespace characters, then a lazy group up to the lookahead. -/
def descSearch (fuel : Nat) (l : List Char) : Option (List Char) :=
  match fuel, l with
  | 0, _ => none
  | _, [] => none
  | fuel + 1, c :: cs =>
    match afterLitCI "description".data (c :: cs) with
    | some r =>
      let (ws, r2) := wsSplit r
      if ws.isEmpty then descSearch fuel cs
      else some (groupTo stopAlpha r2)
    | none => descSearch fuel cs

def descriptionFallback (l : List Char) : Option (List Char) :=
  (descSearch (l.length + 1) l).map fun g =>
    let d := stripL g
    d.take 300 ++ (if 300 < d.length then "...".data else [])

/-- Split on the literal blank-line separator, as `str.split` does. -/
def splitParaF (cur : List Char) : List Char → List (List Char)
  | [] => [cur.reverse]
  | '\n' :: '\n' :: rest => cur.reverse :: splitParaF [] rest
  | c :: cs => splitParaF (c :: cur) cs

def paragraphFallback (l : List Char) : Option (List Char) :=
  let ps := ((splitParaF [] l).map stripL).filter fun p => decide (50 < p.length)
  match ps with
  | [] => none
  | p :: _ => some (p.take 300 ++ (if 300 < p.length then "...".data else []))

def finalCut (l : List Char) : List Char :=
  if 200 < l.length then l.take 200 ++ "...".data else l

/-- The excerpt cleaner `clean_content` of the demo server: empty input is
returned unchanged; otherwise the substitution pipeline runs, then the
useful-sentence selection, then the description, paragraph and raw-prefix
fallbacks, in the order of the source. -/
def cleanContentL (l : List Char) : List Char :=
  if l.isEmpty then [] else
  let c := cleanPhaseL l
  let us := usefulSentences c
  if !us.isEmpty then joinUseful us
  else
    match descriptionFallback c with
    | some d => d
    | none =>
      match paragraphFallback c with
      | some p => p
      | none => finalCut c

def clean_content (s : String) : String := ⟨cleanContentL s.data⟩

end SmartDemo

/-! ## Data model of the grounded response contract -/

structure ContextBlock where
  title : String
  url : String
  last_updated : String
  excerpt : String
  deriving DecidableEq

structure Citation where
  title : String
  url : String
  quote : String
  deriving DecidableEq

structure Action where
  type : String
  tool_name : Option String := none
  fields : Option (List String) := none
  deriving DecidableEq

structure GroundedResponse where
  text : String
  citations : List Citation
  confidence : ℚ
  actions : List Action
  deriving DecidableEq

/-! The policy constants 0.55 and 0.72 of the confidence gates, and the
canned confidences 0.9 and 0.7, as pre-normalised rationals (the spec
design notes call for centralising these magic thresholds as named
configuration). -/

/-- The low-confidence threshold 0.55. -/
def lowThreshold : ℚ := ⟨11, 20, by norm_num, by norm_num⟩

/-- The high-confidence threshold 0.72. -/
def highThreshold : ℚ := ⟨18, 25, by norm_num, by norm_num⟩

/-- The canned-topic confidence 0.9. -/
def conf09 : ℚ := ⟨9, 10, by norm_num, by norm_num⟩

/-- The empty-candidate fallback confidence 0.7 of the demo server. -/
def conf07 : ℚ := ⟨7, 10, by norm_num, by norm_num⟩

def actNone : Action := ⟨"none", none, none⟩

def actClarify : Action := ⟨"clarify", none, none⟩

def leadFields : List String := ["name", "email", "company", "use_case"]

def actLead : Action := ⟨"collect_lead", none, some leadFields⟩

/-- The fixed lead-capture trigger-word set shared by both servers. -/
def leadTriggers : List String :=
  ["demo", "quote", "pricing", "contact", "sales", "budget", "timeline", "implementation"]

def triggerKw (hay : String) : Bool := anyKw leadTriggers hay

namespace SmartDemo

/-! ## The smart demo server grounded-response assembler -/

def greetingStrings : List String :=
  ["hello", "hi", "hey", "how are you", "how are you?", "good morning", "good afternoon"]

def greetingCheck (ul : String) : Bool := greetingStrings.contains ul

def whatisCheck (ul : String) : Bool :=
  pyIn "what is core dna" ul || pyIn "what is coredna" ul

def featureKw (ul : String) : Bool :=
  anyKw ["feature", "capability", "function", "what does", "what can"] ul

def pricingKw (ul : String) : Bool :=
  anyKw ["price", "cost", "pricing", "plan", "subscription"] ul

def ecomKw (ul : String) : Bool :=
  anyKw ["ecommerce", "e-commerce", "online store", "shop", "selling"] ul

def integKw (ul : String) : Bool :=
  anyKw ["integration", "connect", "api", "third party"] ul

/-- Any of the canned-intent shortcuts of the demo assembler that are checked
before the confidence gates. -/
def cannedCheck (ul : String) : Bool :=
  greetingCheck ul || whatisCheck ul || featureKw ul || pricingKw ul ||
  ecomKw ul || integKw ul

def greetingResp : GroundedResponse :=
  ⟨"Hello! I\x27m the Core DNA assistant. I can help you learn about Core DNA\x27s comprehensive digital commerce platform, including e-commerce features, content management, integrations, pricing, and more. What would you like to know about Core DNA?",
   [], 1, [actNone]⟩

def whatisResp : GroundedResponse :=
  ⟨"Core DNA is a comprehensive digital commerce platform that enables businesses to create exceptional customer experiences. The platform combines e-commerce capabilities, content management, customer engagement tools, and seamless integrations to help businesses grow their online presence and sales. Core DNA serves businesses of all sizes with flexible, scalable solutions for modern digital commerce.",
   [], 1, [actNone]⟩

def featureResp : GroundedResponse :=
  ⟨"Core DNA offers a comprehensive suite of digital commerce features including: e-commerce platform with advanced shopping cart functionality, content management system, customer engagement tools, payment gateway integrations, inventory management, order processing, analytics and reporting, multi-channel selling capabilities, and seamless third-party integrations. The platform is designed to help businesses of all sizes create exceptional online customer experiences.",
   [], conf09, [actNone]⟩

def pricingResp : GroundedResponse :=
  ⟨"Core DNA offers flexible pricing plans designed to accommodate businesses of all sizes. The platform provides scalable solutions with various pricing tiers based on your specific needs, transaction volume, and required features. For detailed pricing information and to get a custom quote tailored to your business requirements, I recommend contacting Core DNA\x27s sales team directly. They can provide accurate pricing based on your specific use case.",
   [], conf09, [actLead]⟩

def ecomResp : GroundedResponse :=
  ⟨"Core DNA provides a powerful e-commerce platform that includes advanced shopping cart functionality, secure payment processing, inventory management, order tracking, customer account management, and multi-channel selling capabilities. The platform supports various payment gateways, offers flexible product catalog management, and provides comprehensive analytics to help businesses optimize their online sales performance.",
   [], conf09, [actNone]⟩

def integResp : GroundedResponse :=
  ⟨"Core DNA offers extensive integration capabilities with over 100+ third-party applications and services. The platform provides APIs for custom integrations and supports connections with popular CRM systems, marketing tools, payment gateways, shipping providers, analytics platforms, and accounting software. This allows businesses to create a seamless ecosystem that connects all their essential business tools.",
   [], conf09, [actNone]⟩

def lowConfResp (score : ℚ) : GroundedResponse :=
  ⟨"I don\x27t have specific information about that topic in my Core DNA knowledge base. Could you ask about Core DNA\x27s e-commerce platform, content management features, pricing plans, or integrations?",
   [], score, [actClarify]⟩

def noBlocksResp : GroundedResponse :=
  ⟨"Let me help you learn about Core DNA. You can ask me about e-commerce features, content management, pricing plans, integrations, or specific platform capabilities. What interests you most?",
   [], conf07, [actClarify]⟩

/-- Lead-capture response of the demo assembler: a truncated cleaned excerpt
with a fixed call to action, one citation of the top candidate. -/
def leadResp (msg : String) (score : ℚ) (top : ContextBlock) : GroundedResponse :=
  let cleaned := clean_content top.excerpt
  ⟨"Regarding " ++ pyLower msg ++ ": " ++ pyTakeS 200 cleaned ++
     "... Demo mode cannot access live tools. To discuss pricing and get a demo, please contact Core DNA directly.",
   [⟨pyReplace top.title "Core dna" "Core DNA", top.url,
     pyTakeS 100 (clean_content top.excerpt) ++ "..."⟩],
   score, [actLead]⟩

/-- Citation built for each of the top three candidates. -/
def demoCite (b : ContextBlock) : Citation :=
  let q := clean_content b.excerpt
  ⟨pyReplace b.title "Core dna" "Core DNA", b.url,
   if 100 < q.length then pyTakeS 100 q ++ "..." else q⟩

/-- High-confidence answer text of the demo assembler, dispatched on intent
keywords of the lowered query. -/
def fullText (ul : String) (top : ContextBlock) (rest : List ContextBlock) : String :=
  let cleaned := clean_content top.excerpt
  if anyKw ["what is", "what are", "define", "explain"] ul then
    "Based on Core DNA\x27s documentation: " ++ cleaned ++
      (match rest with
       | [] => ""
       | b2 :: _ =>
         if cleaned.length < 200 then
           " Additionally, " ++ pyTakeS 150 (clean_content b2.excerpt) ++ "..."
         else "")
  else if anyKw ["how", "steps", "process", "setup", "configure"] ul then
    "According to Core DNA\x27s documentation: " ++ cleaned
  else if anyKw ["feature", "capability", "function", "can", "does"] ul then
    "Core DNA provides: " ++ cleaned ++
      (match rest with
       | [] => ""
       | b2 :: _ =>
         if cleaned.length < 200 then
           " The platform also offers: " ++ pyTakeS 150 (clean_content b2.excerpt) ++ "..."
         else "")
  else if anyKw ["price", "cost", "pricing", "plan"] ul then
    let rt := "Regarding Core DNA pricing: " ++ cleaned
    if pyIn "contact" (pyLower rt) then rt
    else rt ++ " For detailed pricing information and custom quotes, I recommend contacting Core DNA\x27s sales team directly."
  else
    "From Core DNA\x27s documentation: " ++ cleaned

/-- Mid-confidence brief answer text of the demo assembler. -/
def briefText (top : ContextBlock) : String :=
  "Based on Core DNA\x27s documentation: " ++ pyTakeS 200 (clean_content top.excerpt) ++
    "... Would you like more specific information about any particular aspect?"

/-- The `assemble_grounded_response` of the demo server: canned conversational and
topic shortcuts first, then the two empty-candidate gates, the lead-capture
gate, and the full/brief confidence dispatch, in the order of the source. -/
def assemble_grounded_response (msg : String) (blocks : List ContextBlock)
    (score : ℚ) : GroundedResponse :=
  let ul := pyStrip (pyLower msg)
  if greetingCheck ul then greetingResp
  else if whatisCheck ul then whatisResp
  else if featureKw ul then featureResp
  else if pricingKw ul then pricingResp
  else if ecomKw ul then ecomResp
  else if integKw ul then integResp
  else
    match blocks with
    | [] => if score < lowThreshold then lowConfResp score else noBlocksResp
    | top :: rest =>
      if triggerKw ul = true ∧ highThreshold ≤ score then leadResp msg score top
      else
        let citations := ((top :: rest).take 3).map demoCite
        if highThreshold ≤ score then
          ⟨fullText ul top rest, citations, score, [actNone]⟩
        else
          ⟨briefText top, citations.take 1, score, [actClarify]⟩

end SmartDemo

namespace Production

/-! ## The production server grounded-response assembler -/

def lowConfResp (conf : ℚ) : GroundedResponse :=
  ⟨"I don\x27t have sufficient information about that topic in my Core DNA knowledge base. Could you be more specific about what aspect of Core DNA\x27s platform you\x27re interested in?",
   [], conf, [actClarify]⟩

def noBlocksResp (conf : ℚ) : GroundedResponse :=
  ⟨"I don\x27t have specific information about that topic. Could you ask about Core DNA\x27s e-commerce platform, content management features, or integrations?",
   [], conf, [actClarify]⟩

/-- Lead-capture response of the production assembler: raw excerpt slices and
one citation of the top candidate. -/
def leadResp (conf : ℚ) (top : ContextBlock) : GroundedResponse :=
  ⟨"Based on our documentation: " ++ pyTakeS 200 top.excerpt ++
     "... To discuss your specific needs, I\x27d like to connect you with our team.",
   [⟨top.title, top.url, pyTakeS 100 top.excerpt ++ "..."⟩],
   conf, [actLead]⟩

def prodCite (b : ContextBlock) : Citation :=
  ⟨b.title, b.url,
   if 150 < b.excerpt.length then pyTakeS 150 b.excerpt ++ "..." else b.excerpt⟩

/-- High-confidence answer text of the production assembler. -/
def fullText (ul : String) (top : ContextBlock) (rest : List ContextBlock) : String :=
  if anyKw ["what is", "what are", "define", "explain"] ul then
    "Based on Core DNA\x27s documentation: " ++ top.excerpt ++
      (match rest with
       | [] => ""
       | b2 :: _ => " Additionally, " ++ pyTakeS 150 b2.excerpt ++ "...")
  else if anyKw ["how", "steps", "process"] ul then
    "According to our documentation: " ++ top.excerpt
  else if anyKw ["feature", "capability", "can"] ul then
    "Core DNA offers: " ++ top.excerpt ++
      (match rest with
       | [] => ""
       | b2 :: _ => " We also provide: " ++ pyTakeS 100 b2.excerpt ++ "...")
  else
    "From our documentation on " ++ top.title ++ ": " ++ top.excerpt

def briefText (top : ContextBlock) : String :=
  "Based on our documentation: " ++ pyTakeS 150 top.excerpt ++
    "... Would you like more specific information about any particular aspect?"

/-- The `assemble_grounded_response` of the production server: low-confidence gate,
empty-candidate gate, lead-capture gate, then the full/brief confidence
dispatch, in the order of the source. -/
def assemble_grounded_response (msg : String) (blocks : List ContextBlock)
    (conf : ℚ) : GroundedResponse :=
  if conf < lowThreshold then lowConfResp conf
  else
    match blocks with
    | [] => noBlocksResp conf
    | top :: rest =>
      let ul := pyLower msg
      if triggerKw ul = true ∧ highThreshold ≤ conf then leadResp conf top
      else
        let citations := ((top :: rest).take 3).map prodCite
        if highThreshold ≤ conf then
          ⟨fullText ul top rest, citations, conf, [actNone]⟩
        else
          ⟨briefText top, citations.take 1, conf, [actClarify]⟩

end Production

namespace SmartDemo

/-! ## Keyword index and lexical search of the demo server -/

structure Doc where
  url : String
  title : String
  content : String
  deriving DecidableEq

/-- A posting stored in the keyword index: the document reference with a
500-character content excerpt and a base weight of one. -/
structure Posting where
  url : String
  title : String
  content : String
  score : ℚ
  deriving DecidableEq

structure SearchResult where
  url : String
  title : String
  content : String
  score : ℚ
  relevance_score : ℚ
  deriving DecidableEq

/-- Tokenisation by word boundaries: maximal runs of word characters. -/
def tokensF (fuel : Nat) (l : List Char) : List (List Char) :=
  match fuel, l with
  | 0, _ => []
  | _, [] => []
  | fuel + 1, c :: cs =>
    if isWordCharB c then
      (l.takeWhile isWordCharB) :: tokensF fuel (l.dropWhile isWordCharB)
    else tokensF fuel cs

def pyFindWords (s : String) : List String :=
  (tokensF (s.data.length + 1) s.data).map fun w => (⟨w⟩ : String)

/-- Insertion-ordered association list update appending a posting under a
term, creating the entry at the end on first use (Python dict order). -/
def addPosting : List (String × List Posting) → String → Posting →
    List (String × List Posting)
  | [], w, p => [(w, [p])]
  | (k, ps) :: rest, w, p =>
    if k = w then (k, ps ++ [p]) :: rest else (k, ps) :: addPosting rest w p

def lookupA {α : Type} (w : String) : List (String × α) → Option α
  | [] => none
  | (k, v) :: rest => if k = w then some v else lookupA w rest

/-- Build the keyword index: every token of the lowered title-plus-content of
each document, in corpus order, indexes a posting when longer than three
characters; repeated occurrences append repeated postings. -/
def create_keyword_index (docs : List Doc) : List (String × List Posting) :=
  docs.foldl
    (fun idx d =>
      (pyFindWords (pyLower (d.title ++ " " ++ d.content))).foldl
        (fun idx w =>
          if 3 < w.length then
            addPosting idx w ⟨d.url, d.title, pyTakeS 500 d.content, 1⟩
          else idx)
        idx)
    []

/-- Insertion-ordered accumulation: add one to the running score of a document,
creating the entry at the end on first touch.  The source accumulates one
point (as the float 1.0) per posting, so the running scores are integral
counts, modelled as naturals; the final normalisation divides them in ℚ. -/
def bumpScore : List (String × Nat) → String → List (String × Nat)
  | [], u => [(u, 1)]
  | (k, s) :: rest, u =>
    if k = u then (k, s + 1) :: rest else (k, s) :: bumpScore rest u

/-- Insertion-ordered info map: overwrite in place, append on first touch. -/
def setInfo : List (String × Posting) → String → Posting → List (String × Posting)
  | [], u, p => [(u, p)]
  | (k, q) :: rest, u, p =>
    if k = u then (k, p) :: rest else (k, q) :: setInfo rest u p

/-- Accumulate one point per posting of each query token present in the
index, in query-token then posting order, duplicates included. -/
def doc_scores (idx : List (String × List Posting)) (qws : List String) :
    List (String × Nat) × List (String × Posting) :=
  qws.foldl
    (fun st w =>
      match lookupA w idx with
      | none => st
      | some ps => ps.foldl (fun st p => (bumpScore st.1 p.url, setInfo st.2 p.url p)) st)
    ([], [])

/-- Stable insertion for descending sort: an element is placed after every
strictly greater one and before equal ones, so that folding from the right
reproduces the stable descending sort of the source. -/
def insertDesc (x : String × Nat) : List (String × Nat) → List (String × Nat)
  | [] => [x]
  | y :: ys => if x.2 < y.2 then y :: insertDesc x ys else x :: y :: ys

def sortDesc (l : List (String × Nat)) : List (String × Nat) := l.foldr insertDesc []

/-- The normalised relevance reported externally: accumulated score divided
by the number of query tokens. -/
def relOf (sc len : Nat) : ℚ := (sc : ℚ) / (len : ℚ)

/-- The `search_content` of the demo server: tokenize the lowered query, score
documents by accumulated keyword matches, sort descending by score, truncate,
and normalise by the query-token count. -/
def search_content (docs : List Doc) (query : String) (max_results : Nat) :
    List SearchResult :=
  if docs = [] then []
  else
    let qws := pyFindWords (pyLower query)
    if qws = [] then []
    else
      let idx := create_keyword_index docs
      let st := doc_scores idx qws
      ((sortDesc st.1).take max_results).filterMap fun du =>
        (lookupA du.1 st.2).map fun p =>
          ⟨p.url, p.title, p.content, p.score, relOf du.2 qws.length⟩

/-- Match score computed by the demo chat endpoint from search results: the
average reported relevance (zero for no results), capped at one. -/
def chat_match_score (results : List SearchResult) : ℚ :=
  let avg :=
    if results = [] then 0
    else (results.map fun r => r.relevance_score).sum / (results.length : ℚ)
  min 1 avg

end SmartDemo

namespace Production

/-- Retrieval confidence computed by the production chat endpoint from the
vector-search distances: one minus half the average distance (the average
defaulting to one when there are no results), floored at one tenth. -/
def chat_retrieval_confidence (distances : List ℚ) : ℚ :=
  let avg := if distances = [] then 1 else distances.sum / (distances.length : ℚ)
  max (1/10) (1 - avg / 2)

end Production

/-- Modelled from the spec: the confidence derivation of section 4.2, `min(1.0,
mean(relevance_score over returned candidates))`, and `0.0` with no
candidates.  Stated over the bare relevance values for comparison with the
endpoint computations. -/
def specConfidence (rels : List ℚ) : ℚ :=
  if rels = [] then 0 else min 1 (rels.sum / (rels.length : ℚ))

/-! ## Concrete fixtures used by witnesses and counterexamples -/

def blkW : ContextBlock := ⟨"Doc Title", "https://example.test/doc", "", ""⟩

/-- The confidence 0.3, pre-normalised. -/
def r03 : ℚ := ⟨3, 10, by norm_num, by norm_num⟩

/-- The confidence 0.95, pre-normalised. -/
def r095 : ℚ := ⟨19, 20, by norm_num, by norm_num⟩

/-- Two-document corpus where a two-token query scores both documents equally
but reaches the second document through the first query token. -/
def tieDocs : List SmartDemo.Doc := [⟨"u1", "", "gamma"⟩, ⟨"u2", "", "alpha"⟩]

/-! ## Helper lemmas about the stable descending sort -/

theorem SmartDemo.mem_insertDesc {x y : String × Nat} :
    ∀ {l : List (String × Nat)}, y ∈ SmartDemo.insertDesc x l → y = x ∨ y ∈ l := by
  intro l
  induction l with
  | nil =>
    intro h
    simp only [SmartDemo.insertDesc, List.mem_singleton] at h
    exact Or.inl h
  | cons z zs ih =>
    intro h
    by_cases hc : x.2 < z.2
    · simp only [SmartDemo.insertDesc, if_pos hc] at h
      rcases List.mem_cons.1 h with h1 | h2
      · exact Or.inr (List.mem_cons.2 (Or.inl h1))
      · rcases ih h2 with h3 | h4
        · exact Or.inl h3
        · exact Or.inr (List.mem_cons.2 (Or.inr h4))
    · simp only [SmartDemo.insertDesc, if_neg hc] at h
      rcases List.mem_cons.1 h with h1 | h2
      · exact Or.inl h1
      · exact Or.inr h2

theorem SmartDemo.pairwise_insertDesc (x : String × Nat) :
    ∀ l : List (String × Nat), l.Pairwise (fun a b => b.2 ≤ a.2) →
      (SmartDemo.insertDesc x l).Pairwise (fun a b => b.2 ≤ a.2) := by
  intro l
  induction l with
  | nil => intro _; simp [SmartDemo.insertDesc]
  | cons z zs ih =>
    intro hp
    rcases List.pairwise_cons.1 hp with ⟨hz, hzs⟩
    by_cases hc : x.2 < z.2
    · simp only [SmartDemo.insertDesc, if_pos hc]
      refine List.pairwise_cons.2 ⟨?_, ih hzs⟩
      intro y hy
      rcases SmartDemo.mem_insertDesc hy with rfl | hy2
      · exact le_of_lt hc
      · exact hz y hy2
    · simp only [SmartDemo.insertDesc, if_neg hc]
      refine List.pairwise_cons.2 ⟨?_, hp⟩
      intro y hy
      rcases List.mem_cons.1 hy with rfl | hy2
      · exact not_lt.1 hc
      · exact le_trans (hz y hy2) (not_lt.1 hc)

theorem SmartDemo.pairwise_sortDesc (l : List (String × Nat)) :
    (SmartDemo.sortDesc l).Pairwise (fun a b => b.2 ≤ a.2) := by
  induction l with
  | nil => simp [SmartDemo.sortDesc]
  | cons x xs ih =>
    have h1 : SmartDemo.sortDesc (x :: xs) = SmartDemo.insertDesc x (SmartDemo.sortDesc xs) := rfl
    rw [h1]
    exact SmartDemo.pairwise_insertDesc x _ ih

theorem SmartDemo.filter_insertDesc (x : String × Nat) (c : Nat) :
    ∀ l : List (String × Nat),
      (SmartDemo.insertDesc x l).filter (fun y => decide (y.2 = c)) =
        if x.2 = c then x :: l.filter (fun y => decide (y.2 = c))
        else l.filter (fun y => decide (y.2 = c)) := by
  intro l
  induction l with
  | nil => by_cases hx : x.2 = c <;> simp [SmartDemo.insertDesc, List.filter, hx]
  | cons z zs ih =>
    by_cases hc : x.2 < z.2
    · simp only [SmartDemo.insertDesc, if_pos hc]
      by_cases hx : x.2 = c
      · have hz : ¬ z.2 = c := by rw [← hx]; exact (ne_of_gt hc)
        simp [List.filter_cons, hx, hz, ih]
      · by_cases hz : z.2 = c <;> simp [List.filter_cons, hx, hz, ih]
    · simp only [SmartDemo.insertDesc, if_neg hc]
      by_cases hx : x.2 = c <;>
        by_cases hz : z.2 = c <;> simp [List.filter_cons, hx, hz]

/-- Stability of the demo sort: every equal-score class keeps its
accumulation order through the sort. -/
theorem SmartDemo.filter_sortDesc (c : Nat) :
    ∀ l : List (String × Nat),
      (SmartDemo.sortDesc l).filter (fun y => decide (y.2 = c)) =
        l.filter (fun y => decide (y.2 = c)) := by
  intro l
  induction l with
  | nil => rfl
  | cons x xs ih =>
    have h1 : SmartDemo.sortDesc (x :: xs) = SmartDemo.insertDesc x (SmartDemo.sortDesc xs) := rfl
    rw [h1, SmartDemo.filter_insertDesc]
    by_cases hx : x.2 = c <;> simp [List.filter_cons, hx, ih]

theorem pairwise_filterMap {α β : Type} (R : α → α → Prop) (S : β → β → Prop)
    (f : α → Option β)
    (hf : ∀ a b x y, R a b → f a = some x → f b = some y → S x y) :
    ∀ l : List α, l.Pairwise R → (l.filterMap f).Pairwise S := by
  intro l
  induction l with
  | nil => intro _; simp
  | cons a l ih =>
    intro hp
    rcases List.pairwise_cons.1 hp with ⟨ha, hl⟩
    cases hfa : f a with
    | none => simpa [List.filterMap_cons, hfa] using ih hl
    | some x =>
      simp only [List.filterMap_cons, hfa]
      refine List.pairwise_cons.2 ⟨?_, ih hl⟩
      intro y hy
      rcases List.mem_filterMap.1 hy with ⟨b, hb, hfb⟩
      exact hf a b x y (ha b hb) hfa hfb

/-! ## Helper lemmas about the excerpt cleaner -/

theorem SmartDemo.joinUseful_ne_nil (us : List (List Char)) :
    SmartDemo.joinUseful us ≠ [] := by
  unfold SmartDemo.joinUseful
  by_cases h : endsL ['.'] (SmartDemo.joinDotSp (us.take 3)) = true
  · rw [if_pos h]
    intro hnil
    rw [hnil] at h
    simp [endsL, startsL] at h
  · rw [if_neg h]
    simp

theorem SmartDemo.cleanContentL_fixed (l : List Char)
    (h1 : SmartDemo.cleanPhaseL l = l)
    (h2 : SmartDemo.usefulSentences l ≠ [])
    (h3 : SmartDemo.joinUseful (SmartDemo.usefulSentences l) = l) :
    SmartDemo.cleanContentL l = l := by
  by_cases hl : l.isEmpty = true
  · have hnil : l = [] := by simpa using hl
    subst hnil
    exact absurd (by decide) h2
  · unfold SmartDemo.cleanContentL
    rw [if_neg hl]
    have hus : (SmartDemo.usefulSentences (SmartDemo.cleanPhaseL l)).isEmpty = false := by
      rw [h1]
      cases hst : SmartDemo.usefulSentences l with
      | nil => exact absurd hst h2
      | cons a b => rfl
    simp only [h1] at hus ⊢
    simp [hus, h3]

theorem SmartDemo.cleanContentL_ne_nil (l : List Char) (hl : l ≠ [])
    (hus : SmartDemo.usefulSentences (SmartDemo.cleanPhaseL l) ≠ []) :
    SmartDemo.cleanContentL l ≠ [] := by
  unfold SmartDemo.cleanContentL
  rw [if_neg (by simpa using hl)]
  have hne : (SmartDemo.usefulSentences (SmartDemo.cleanPhaseL l)).isEmpty = false := by
    cases hst : SmartDemo.usefulSentences (SmartDemo.cleanPhaseL l) with
    | nil => exact absurd hst hus
    | cons a b => rfl
  simp only [hne, Bool.not_false, if_true]
  exact SmartDemo.joinUseful_ne_nil _

theorem SmartDemo.cleanContent_fixed (t : String)
    (h1 : SmartDemo.cleanPhaseL t.data = t.data)
    (h2 : SmartDemo.usefulSentences t.data ≠ [])
    (h3 : SmartDemo.joinUseful (SmartDemo.usefulSentences t.data) = t.data) :
    SmartDemo.clean_content t = t := by
  have h := SmartDemo.cleanContentL_fixed t.data h1 h2 h3
  simp only [SmartDemo.clean_content, h]

/-! ## Identification of the policy constants with their decimal values -/

theorem lowThreshold_eq : lowThreshold = 55/100 := by
  rw [lowThreshold, Rat.mk'_eq_divInt, Rat.divInt_eq_div]; norm_num

theorem highThreshold_eq : highThreshold = 72/100 := by
  rw [highThreshold, Rat.mk'_eq_divInt, Rat.divInt_eq_div]; norm_num

theorem conf09_eq : conf09 = 9/10 := by
  rw [conf09, Rat.mk'_eq_divInt, Rat.divInt_eq_div]; norm_num

theorem conf07_eq : conf07 = 7/10 := by
  rw [conf07, Rat.mk'_eq_divInt, Rat.divInt_eq_div]; norm_num

theorem r03_eq : r03 = 3/10 := by
  rw [r03, Rat.mk'_eq_divInt, Rat.divInt_eq_div]; norm_num

theorem r095_eq : r095 = 95/100 := by
  rw [r095, Rat.mk'_eq_divInt, Rat.divInt_eq_div]; norm_num

/-! ## Claim theorems -/

/-- Claim C1 (amended): below the 0.55 threshold the production assembler
always answers with action clarify, empty citations and the confidence passed
through, for every query and candidate list.  The demo assembler does so only
for queries matching no canned shortcut and an empty candidate list; with
candidates present it still clarifies with the confidence passed through but
emits one citation, and canned queries bypass the gate entirely. -/
theorem C1_amended :
    (∀ (q : String) (cs : List ContextBlock) (conf : ℚ), conf < 55/100 →
      (Production.assemble_grounded_response q cs conf).actions = [actClarify] ∧
      (Production.assemble_grounded_response q cs conf).citations = [] ∧
      (Production.assemble_grounded_response q cs conf).confidence = conf) ∧
    (∀ (q : String) (conf : ℚ), conf < 55/100 →
      SmartDemo.cannedCheck (pyStrip (pyLower q)) = false →
      (SmartDemo.assemble_grounded_response q [] conf).actions = [actClarify] ∧
      (SmartDemo.assemble_grounded_response q [] conf).citations = [] ∧
      (SmartDemo.assemble_grounded_response q [] conf).confidence = conf) ∧
    (∀ (q : String) (top : ContextBlock) (rest : List ContextBlock) (conf : ℚ),
      conf < 55/100 →
      SmartDemo.cannedCheck (pyStrip (pyLower q)) = false →
      (SmartDemo.assemble_grounded_response q (top :: rest) conf).actions = [actClarify] ∧
      (SmartDemo.assemble_grounded_response q (top :: rest) conf).citations.length = 1 ∧
      (SmartDemo.assemble_grounded_response q (top :: rest) conf).confidence = conf) := by
  refine ⟨?_, ?_, ?_⟩
  · intro q cs conf h
    rw [← lowThreshold_eq] at h
    unfold Production.assemble_grounded_response
    rw [if_pos h]
    exact ⟨rfl, rfl, rfl⟩
  · intro q conf h hc
    rw [← lowThreshold_eq] at h
    simp only [SmartDemo.cannedCheck, Bool.or_eq_false_iff] at hc
    obtain ⟨⟨⟨⟨⟨hg, hw⟩, hf⟩, hp⟩, he⟩, hi⟩ := hc
    simp [SmartDemo.assemble_grounded_response, hg, hw, hf, hp, he, hi, h,
      SmartDemo.lowConfResp]
  · intro q top rest conf h hc
    rw [← lowThreshold_eq] at h
    have h72 : ¬ highThreshold ≤ conf := by
      intro hh
      rw [highThreshold_eq] at hh
      rw [lowThreshold_eq] at h
      have : (55/100 : ℚ) < 72/100 := by norm_num
      linarith
    simp only [SmartDemo.cannedCheck, Bool.or_eq_false_iff] at hc
    obtain ⟨⟨⟨⟨⟨hg, hw⟩, hf⟩, hp⟩, he⟩, hi⟩ := hc
    simp [SmartDemo.assemble_grounded_response, hg, hw, hf, hp, he, hi, h72,
      List.take_succ_cons]

/-- Claim C1 (counterexample): the demo assembler violates the claim at the
greeting query with confidence 3/10: the first action is `none`, not
`clarify`, and the confidence is replaced by 1. -/
theorem C1_cex :
    r03 = 3/10 ∧ r03 < 55/100 ∧
    (SmartDemo.assemble_grounded_response "hello" [] r03).actions = [actNone] ∧
    (SmartDemo.assemble_grounded_response "hello" [] r03).confidence = 1 ∧
    actNone ≠ actClarify ∧ ¬ ((1 : ℚ) = 3/10) := by
  refine ⟨r03_eq, by rw [r03_eq]; norm_num, by decide, by decide, by decide, by norm_num⟩

/-- Claim C1 (witness): the amended claim instantiated at confidence 1/4, on
the production assembler with a candidate and on the demo assembler with and
without candidates. -/
theorem C1_witness :
    ((Production.assemble_grounded_response "anything" [blkW] (1/4)).actions = [actClarify] ∧
     (Production.assemble_grounded_response "anything" [blkW] (1/4)).citations = [] ∧
     (Production.assemble_grounded_response "anything" [blkW] (1/4)).confidence = 1/4) ∧
    ((SmartDemo.assemble_grounded_response "zzz" [] (1/4)).actions = [actClarify] ∧
     (SmartDemo.assemble_grounded_response "zzz" [] (1/4)).citations = [] ∧
     (SmartDemo.assemble_grounded_response "zzz" [] (1/4)).confidence = 1/4) ∧
    ((SmartDemo.assemble_grounded_response "zzz" [blkW] (1/4)).actions = [actClarify] ∧
     (SmartDemo.assemble_grounded_response "zzz" [blkW] (1/4)).citations.length = 1 ∧
     (SmartDemo.assemble_grounded_response "zzz" [blkW] (1/4)).confidence = 1/4) :=
  ⟨C1_amended.1 "anything" [blkW] (1/4) (by norm_num),
   C1_amended.2.1 "zzz" (1/4) (by norm_num) (by decide),
   C1_amended.2.2 "zzz" blkW [] (1/4) (by norm_num) (by decide)⟩

/-- Claim C2 (amended): with candidates present and no lead-trigger word,
branch selection is decided by inclusive upper boundaries exactly as claimed
for the production assembler: confidence in [0.55, 0.72) selects the
mid-confidence branch (action clarify, exactly one citation, confidence
passed through), 0.72 and above selects the full branch (action none, at most
three citations, confidence passed through), and 0.549999 still clarifies
through the low gate.  For the demo assembler the same holds only for
queries matching no canned shortcut. -/
theorem C2_amended :
    (∀ (q : String) (top : ContextBlock) (rest : List ContextBlock) (conf : ℚ),
      triggerKw (pyLower q) = false → 55/100 ≤ conf → conf < 72/100 →
      (Production.assemble_grounded_response q (top :: rest) conf).actions = [actClarify] ∧
      (Production.assemble_grounded_response q (top :: rest) conf).citations.length = 1 ∧
      (Production.assemble_grounded_response q (top :: rest) conf).confidence = conf) ∧
    (∀ (q : String) (top : ContextBlock) (rest : List ContextBlock) (conf : ℚ),
      triggerKw (pyLower q) = false → 72/100 ≤ conf →
      (Production.assemble_grounded_response q (top :: rest) conf).actions = [actNone] ∧
      (Production.assemble_grounded_response q (top :: rest) conf).citations.length ≤ 3 ∧
      (Production.assemble_grounded_response q (top :: rest) conf).confidence = conf) ∧
    (∀ (q : String) (cs : List ContextBlock),
      (Production.assemble_grounded_response q cs (549999/1000000)).actions = [actClarify]) ∧
    (∀ (q : String) (top : ContextBlock) (rest : List ContextBlock) (conf : ℚ),
      SmartDemo.cannedCheck (pyStrip (pyLower q)) = false →
      triggerKw (pyStrip (pyLower q)) = false → 55/100 ≤ conf → conf < 72/100 →
      (SmartDemo.assemble_grounded_response q (top :: rest) conf).actions = [actClarify] ∧
      (SmartDemo.assemble_grounded_response q (top :: rest) conf).citations.length = 1 ∧
      (SmartDemo.assemble_grounded_response q (top :: rest) conf).confidence = conf) ∧
    (∀ (q : String) (top : ContextBlock) (rest : List ContextBlock) (conf : ℚ),
      SmartDemo.cannedCheck (pyStrip (pyLower q)) = false →
      triggerKw (pyStrip (pyLower q)) = false → 72/100 ≤ conf →
      (SmartDemo.assemble_grounded_response q (top :: rest) conf).actions = [actNone] ∧
      (SmartDemo.assemble_grounded_response q (top :: rest) conf).citations.length ≤ 3 ∧
      (SmartDemo.assemble_grounded_response q (top :: rest) conf).confidence = conf) := by
  refine ⟨?_, ?_, ?_, ?_, ?_⟩
  · intro q top rest conf ht h55 h72
    have hnl : ¬ conf < lowThreshold := by
      rw [lowThreshold_eq]; exact not_lt.2 h55
    have hnh : ¬ highThreshold ≤ conf := by
      rw [highThreshold_eq]; exact not_le.2 h72
    simp [Production.assemble_grounded_response, hnl, hnh, ht, List.take_succ_cons]
  · intro q top rest conf ht h72
    have hnl : ¬ conf < lowThreshold := by
      rw [lowThreshold_eq]
      intro hlt
      have h5572 : (55/100 : ℚ) < 72/100 := by norm_num
      linarith
    have hh : highThreshold ≤ conf := by rw [highThreshold_eq]; exact h72
    refine ⟨?_, ?_, ?_⟩
    · simp [Production.assemble_grounded_response, hnl, hh, ht]
    · simp [Production.assemble_grounded_response, hnl, hh, ht, List.length_take]
    · simp [Production.assemble_grounded_response, hnl, hh, ht]
  · intro q cs
    have h : (549999/1000000 : ℚ) < lowThreshold := by
      rw [lowThreshold_eq]; norm_num
    unfold Production.assemble_grounded_response
    rw [if_pos h]
    rfl
  · intro q top rest conf hc ht h55 h72
    simp only [SmartDemo.cannedCheck, Bool.or_eq_false_iff] at hc
    obtain ⟨⟨⟨⟨⟨hg, hw⟩, hf⟩, hp⟩, he⟩, hi⟩ := hc
    have hnh : ¬ highThreshold ≤ conf := by
      rw [highThreshold_eq]; exact not_le.2 h72
    simp [SmartDemo.assemble_grounded_response, hg, hw, hf, hp, he, hi, ht, hnh,
      List.take_succ_cons]
  · intro q top rest conf hc ht h72
    simp only [SmartDemo.cannedCheck, Bool.or_eq_false_iff] at hc
    obtain ⟨⟨⟨⟨⟨hg, hw⟩, hf⟩, hp⟩, he⟩, hi⟩ := hc
    have hh : highThreshold ≤ conf := by rw [highThreshold_eq]; exact h72
    refine ⟨?_, ?_, ?_⟩
    · simp [SmartDemo.assemble_grounded_response, hg, hw, hf, hp, he, hi, ht, hh]
    · simp [SmartDemo.assemble_grounded_response, hg, hw, hf, hp, he, hi, ht, hh,
        List.length_take]
    · simp [SmartDemo.assemble_grounded_response, hg, hw, hf, hp, he, hi, ht, hh]

/-- Claim C2 (counterexample): the demo assembler leaves the claimed branch
structure at the greeting query: with a candidate present, no trigger word
and confidence exactly 0.55 it answers with action `none` and confidence 1
instead of the mid-confidence clarify branch. -/
theorem C2_cex :
    triggerKw (pyStrip (pyLower "hello")) = false ∧
    lowThreshold = 55/100 ∧
    (SmartDemo.assemble_grounded_response "hello" [blkW] lowThreshold).actions = [actNone] ∧
    (SmartDemo.assemble_grounded_response "hello" [blkW] lowThreshold).citations = [] ∧
    (SmartDemo.assemble_grounded_response "hello" [blkW] lowThreshold).confidence = 1 := by
  refine ⟨by decide, lowThreshold_eq, by decide, by decide, by decide⟩

/-- Claim C2 (witness): boundary instances of the amended claim at 0.55,
0.719999, 0.72 and 0.549999. -/
theorem C2_witness :
    ((Production.assemble_grounded_response "zzz" [blkW] (55/100)).actions = [actClarify] ∧
     (Production.assemble_grounded_response "zzz" [blkW] (55/100)).citations.length = 1 ∧
     (Production.assemble_grounded_response "zzz" [blkW] (55/100)).confidence = 55/100) ∧
    ((Production.assemble_grounded_response "zzz" [blkW] (719999/1000000)).actions = [actClarify] ∧
     (Production.assemble_grounded_response "zzz" [blkW] (719999/1000000)).citations.length = 1 ∧
     (Production.assemble_grounded_response "zzz" [blkW] (719999/1000000)).confidence = 719999/1000000) ∧
    ((Production.assemble_grounded_response "zzz" [blkW] (72/100)).actions = [actNone] ∧
     (Production.assemble_grounded_response "zzz" [blkW] (72/100)).citations.length ≤ 3 ∧
     (Production.assemble_grounded_response "zzz" [blkW] (72/100)).confidence = 72/100) ∧
    (Production.assemble_grounded_response "zzz" [blkW] (549999/1000000)).actions = [actClarify] ∧
    ((SmartDemo.assemble_grounded_response "zzz" [blkW] (55/100)).actions = [actClarify] ∧
     (SmartDemo.assemble_grounded_response "zzz" [blkW] (55/100)).citations.length = 1 ∧
     (SmartDemo.assemble_grounded_response "zzz" [blkW] (55/100)).confidence = 55/100) ∧
    ((SmartDemo.assemble_grounded_response "zzz" [blkW] (72/100)).actions = [actNone] ∧
     (SmartDemo.assemble_grounded_response "zzz" [blkW] (72/100)).citations.length ≤ 3 ∧
     (SmartDemo.assemble_grounded_response "zzz" [blkW] (72/100)).confidence = 72/100) :=
  ⟨C2_amended.1 "zzz" blkW [] (55/100) (by decide) (by norm_num) (by norm_num),
   C2_amended.1 "zzz" blkW [] (719999/1000000) (by decide) (by norm_num) (by norm_num),
   C2_amended.2.1 "zzz" blkW [] (72/100) (by decide) (by norm_num),
   C2_amended.2.2.1 "zzz" [blkW],
   C2_amended.2.2.2.1 "zzz" blkW [] (55/100) (by decide) (by decide) (by norm_num) (by norm_num),
   C2_amended.2.2.2.2 "zzz" blkW [] (72/100) (by decide) (by decide) (by norm_num)⟩

/-- Claim C3 (amended): a query containing a lead-trigger word with
confidence at least 0.72 and candidates present yields action `collect_lead`
with the standard field list and exactly one citation, the top candidate —
unconditionally in the production assembler, and in the demo assembler for
queries matching no canned shortcut; a trigger query that also matches a
canned topic bucket (for example one containing `pricing`) is answered by
the curated bucket instead, with no citations. -/
theorem C3_amended :
    (∀ (q : String) (top : ContextBlock) (rest : List ContextBlock) (conf : ℚ),
      triggerKw (pyLower q) = true → 72/100 ≤ conf →
      (Production.assemble_grounded_response q (top :: rest) conf).actions = [actLead] ∧
      (Production.assemble_grounded_response q (top :: rest) conf).citations.length = 1 ∧
      (Production.assemble_grounded_response q (top :: rest) conf).citations.map
        (fun c => c.url) = [top.url] ∧
      (Production.assemble_grounded_response q (top :: rest) conf).confidence = conf) ∧
    (∀ (q : String) (top : ContextBlock) (rest : List ContextBlock) (conf : ℚ),
      SmartDemo.cannedCheck (pyStrip (pyLower q)) = false →
      triggerKw (pyStrip (pyLower q)) = true → 72/100 ≤ conf →
      (SmartDemo.assemble_grounded_response q (top :: rest) conf).actions = [actLead] ∧
      (SmartDemo.assemble_grounded_response q (top :: rest) conf).citations.length = 1 ∧
      (SmartDemo.assemble_grounded_response q (top :: rest) conf).citations.map
        (fun c => c.url) = [top.url] ∧
      (SmartDemo.assemble_grounded_response q (top :: rest) conf).confidence = conf) := by
  constructor
  · intro q top rest conf ht h72
    have hnl : ¬ conf < lowThreshold := by
      rw [lowThreshold_eq]
      intro hlt
      have h5572 : (55/100 : ℚ) < 72/100 := by norm_num
      linarith
    have hh : highThreshold ≤ conf := by rw [highThreshold_eq]; exact h72
    simp [Production.assemble_grounded_response, hnl, hh, ht, Production.leadResp]
  · intro q top rest conf hc ht h72
    simp only [SmartDemo.cannedCheck, Bool.or_eq_false_iff] at hc
    obtain ⟨⟨⟨⟨⟨hg, hw⟩, hf⟩, hp⟩, he⟩, hi⟩ := hc
    have hh : highThreshold ≤ conf := by rw [highThreshold_eq]; exact h72
    simp [SmartDemo.assemble_grounded_response, hg, hw, hf, hp, he, hi, ht, hh,
      SmartDemo.leadResp]

/-- Claim C3 (counterexample): the lead-precedence query of the spec itself contains
`pricing`, so the demo assembler answers it from the curated pricing bucket:
the action is still `collect_lead` with the standard fields, but the
citations are empty rather than the claimed single top-candidate citation,
and the confidence becomes 0.9 instead of the passed-through 0.8. -/
theorem C3_cex :
    triggerKw (pyStrip (pyLower "I need a demo and pricing information")) = true ∧
    (72/100 : ℚ) ≤ 8/10 ∧
    (SmartDemo.assemble_grounded_response "I need a demo and pricing information"
        [blkW] (8/10)).citations = [] ∧
    (SmartDemo.assemble_grounded_response "I need a demo and pricing information"
        [blkW] (8/10)).actions = [actLead] ∧
    (SmartDemo.assemble_grounded_response "I need a demo and pricing information"
        [blkW] (8/10)).confidence = conf09 ∧
    conf09 = 9/10 := by
  refine ⟨by decide, by norm_num, by decide, by decide, by decide, conf09_eq⟩

/-- Claim C3 (witness): the amended claim instantiated at the trigger query
`quote` with confidence 3/4 on both assemblers. -/
theorem C3_witness :
    ((Production.assemble_grounded_response "please send a quote" [blkW] (3/4)).actions =
        [actLead] ∧
     (Production.assemble_grounded_response "please send a quote" [blkW] (3/4)).citations.length = 1 ∧
     (Production.assemble_grounded_response "please send a quote" [blkW] (3/4)).citations.map
        (fun c => c.url) = [blkW.url] ∧
     (Production.assemble_grounded_response "please send a quote" [blkW] (3/4)).confidence = 3/4) ∧
    ((SmartDemo.assemble_grounded_response "quote" [blkW] (3/4)).actions = [actLead] ∧
     (SmartDemo.assemble_grounded_response "quote" [blkW] (3/4)).citations.length = 1 ∧
     (SmartDemo.assemble_grounded_response "quote" [blkW] (3/4)).citations.map
        (fun c => c.url) = [blkW.url] ∧
     (SmartDemo.assemble_grounded_response "quote" [blkW] (3/4)).confidence = 3/4) :=
  ⟨C3_amended.1 "please send a quote" blkW [] (3/4) (by decide) (by norm_num),
   C3_amended.2 "quote" blkW [] (3/4) (by decide) (by decide) (by norm_num)⟩

/-- Claim C4 (amended): each fixed greeting string makes the demo assembler
return the one fixed greeting response — confidence 1, action `none`, no
citations — for every candidate list and every input confidence, bypassing
retrieval; the production assembler has no greeting handling and routes the
greeting through the ordinary confidence gates. -/
theorem C4_amended :
    (∀ g ∈ SmartDemo.greetingStrings, ∀ (cs : List ContextBlock) (conf : ℚ),
      SmartDemo.assemble_grounded_response g cs conf = SmartDemo.greetingResp) ∧
    SmartDemo.greetingResp.confidence = 1 ∧
    SmartDemo.greetingResp.actions = [actNone] ∧
    SmartDemo.greetingResp.citations = [] := by
  refine ⟨?_, rfl, rfl, rfl⟩
  intro g hg cs conf
  fin_cases hg <;> rfl

/-- Claim C4 (counterexample): the production assembler does not bypass
retrieval for the greeting: at confidence 3/10 the query `hello` yields
action `clarify` with the confidence passed through, not the claimed fixed
confidence-1 `none` response. -/
theorem C4_cex :
    (Production.assemble_grounded_response "hello" [] r03).confidence = r03 ∧
    (Production.assemble_grounded_response "hello" [] r03).actions = [actClarify] ∧
    r03 = 3/10 ∧ ¬ ((3/10 : ℚ) = 1) ∧ actClarify ≠ actNone := by
  refine ⟨by decide, by decide, r03_eq, by norm_num, by decide⟩

/-- Claim C4 (witness): the amended claim instantiated at `hello` with a
candidate list and an arbitrary confidence. -/
theorem C4_witness :
    SmartDemo.assemble_grounded_response "hello" [blkW] (1/2) = SmartDemo.greetingResp ∧
    SmartDemo.greetingResp.confidence = 1 :=
  ⟨C4_amended.1 "hello" (by decide) [blkW] (1/2), C4_amended.2.1⟩

/-- Claim C5 (amended): a query containing a keyword of a topic bucket, and
matching neither the greeting nor the product-definition shortcut, receives
the curated static bucket answer with confidence 0.9 and no citations
regardless of the candidate list and the input confidence — not only when no
high-quality candidate exists; when the first matching bucket is pricing the
action is `collect_lead` with the standard fields. -/
theorem C5_amended :
    ∀ (q : String) (cs : List ContextBlock) (conf : ℚ),
      SmartDemo.greetingCheck (pyStrip (pyLower q)) = false →
      SmartDemo.whatisCheck (pyStrip (pyLower q)) = false →
      (SmartDemo.featureKw (pyStrip (pyLower q)) || SmartDemo.pricingKw (pyStrip (pyLower q)) ||
       SmartDemo.ecomKw (pyStrip (pyLower q)) || SmartDemo.integKw (pyStrip (pyLower q))) = true →
      ((SmartDemo.assemble_grounded_response q cs conf).confidence = conf09 ∧
       (SmartDemo.assemble_grounded_response q cs conf).citations = [] ∧
       SmartDemo.assemble_grounded_response q cs conf =
         SmartDemo.assemble_grounded_response q [] 0) ∧
      (SmartDemo.featureKw (pyStrip (pyLower q)) = false →
       SmartDemo.pricingKw (pyStrip (pyLower q)) = true →
       (SmartDemo.assemble_grounded_response q cs conf).actions = [actLead]) := by
  intro q cs conf hg hw hb
  cases hf : SmartDemo.featureKw (pyStrip (pyLower q)) with
  | true =>
    refine ⟨?_, ?_⟩
    · simp [SmartDemo.assemble_grounded_response, hg, hw, hf, SmartDemo.featureResp]
    · intro hf2 _
      simp at hf2
  | false =>
    cases hp : SmartDemo.pricingKw (pyStrip (pyLower q)) with
    | true =>
      refine ⟨?_, ?_⟩
      · simp [SmartDemo.assemble_grounded_response, hg, hw, hf, hp, SmartDemo.pricingResp]
      · intro _ _
        simp [SmartDemo.assemble_grounded_response, hg, hw, hf, hp, SmartDemo.pricingResp,
          actLead]
    | false =>
      cases he : SmartDemo.ecomKw (pyStrip (pyLower q)) with
      | true =>
        refine ⟨?_, ?_⟩
        · simp [SmartDemo.assemble_grounded_response, hg, hw, hf, hp, he, SmartDemo.ecomResp]
        · intro _ hp2
          simp at hp2
      | false =>
        cases hi : SmartDemo.integKw (pyStrip (pyLower q)) with
        | true =>
          refine ⟨?_, ?_⟩
          · simp [SmartDemo.assemble_grounded_response, hg, hw, hf, hp, he, hi,
              SmartDemo.integResp]
          · intro _ hp2
            simp at hp2
        | false =>
          rw [hf, hp, he, hi] at hb
          exact absurd hb (by simp)

set_option maxRecDepth 8000 in
/-- Claim C5 (counterexample): the demo assembler returns the curated feature
answer even when a high-quality candidate exists — the query `features` with
a candidate present and confidence 0.95 still gets the static bucket answer
with confidence 0.9, contradicting the only-when-no-high-quality-candidate
condition of the claim. -/
theorem C5_cex :
    SmartDemo.featureKw (pyStrip (pyLower "features")) = true ∧
    (72/100 : ℚ) ≤ r095 ∧ r095 = 95/100 ∧
    SmartDemo.assemble_grounded_response "features" [blkW] r095 = SmartDemo.featureResp ∧
    SmartDemo.featureResp.confidence = conf09 ∧ conf09 = 9/10 := by
  refine ⟨by decide, ?_, r095_eq, by decide, by decide, conf09_eq⟩
  rw [r095_eq]; norm_num

/-- Claim C5 (witness): the amended claim instantiated at the query
`pricing` with no candidates and confidence zero. -/
theorem C5_witness :
    (SmartDemo.assemble_grounded_response "pricing" [] 0).confidence = conf09 ∧
    (SmartDemo.assemble_grounded_response "pricing" [] 0).citations = [] ∧
    (SmartDemo.assemble_grounded_response "pricing" [] 0).actions = [actLead] :=
  ⟨(C5_amended "pricing" [] 0 (by decide) (by decide) (by decide)).1.1,
   (C5_amended "pricing" [] 0 (by decide) (by decide) (by decide)).1.2.1,
   (C5_amended "pricing" [] 0 (by decide) (by decide) (by decide)).2 (by decide) (by decide)⟩

/-- Claim C6 (amended): in the demo server the confidence handed to the
assembler equals the spec derivation, the minimum of one and the mean
relevance, zero with no candidates; the production server instead computes
`max(0.1, 1 - mean(distance)/2)`, which is one half—not zero—when the search
returns no candidates. -/
theorem C6_amended :
    (∀ rs : List SmartDemo.SearchResult,
      SmartDemo.chat_match_score rs = specConfidence (rs.map fun r => r.relevance_score)) ∧
    Production.chat_retrieval_confidence [] = 1/2 := by
  constructor
  · intro rs
    cases rs with
    | nil => simp [SmartDemo.chat_match_score, specConfidence]
    | cons a l =>
      simp [SmartDemo.chat_match_score, specConfidence, List.length_map]
  · norm_num [Production.chat_retrieval_confidence]

/-- Claim C6 (counterexample): the production chat endpoint hands confidence
one half to the assembler when the search returns no candidates, not the
claimed zero. -/
theorem C6_cex :
    Production.chat_retrieval_confidence [] = 1/2 ∧ ¬ ((1/2 : ℚ) = 0) := by
  constructor
  · norm_num [Production.chat_retrieval_confidence]
  · norm_num

/-- Claim C7: the code violates the required relevance cap.  On a one-document
corpus whose content repeats one indexed token, a one-token query yields a
reported `relevance_score` of two, outside the unit interval, because the
accumulated score counts the duplicate postings and is divided by the single
query token without capping. -/
theorem C7_bug :
    (SmartDemo.search_content [⟨"u", "", "platform platform"⟩] "platform" 5).map
        (fun r => r.relevance_score) = [SmartDemo.relOf 2 1] ∧
    SmartDemo.relOf 2 1 = 2 ∧ ¬ ((2 : ℚ) ≤ 1) := by
  refine ⟨rfl, by norm_num [SmartDemo.relOf], by norm_num⟩

/-- Claim C8 (amended): the candidate list returned by search is sorted in
descending order of normalized score and is deterministic, and the sort is
stable: every equal-score class keeps the order in which documents were first
encountered while accumulating scores over the postings of the query tokens (which
is corpus order only for single-token reachability, not in general). -/
theorem C8_amended :
    ∀ (docs : List SmartDemo.Doc) (q : String) (k : Nat),
      (SmartDemo.search_content docs q k).Pairwise
        (fun a b => b.relevance_score ≤ a.relevance_score) ∧
      ∀ c : Nat,
        (SmartDemo.sortDesc
            (SmartDemo.doc_scores (SmartDemo.create_keyword_index docs)
              (SmartDemo.pyFindWords (pyLower q))).1).filter
            (fun y => decide (y.2 = c)) =
          ((SmartDemo.doc_scores (SmartDemo.create_keyword_index docs)
              (SmartDemo.pyFindWords (pyLower q))).1).filter
            (fun y => decide (y.2 = c)) := by
  intro docs q k
  constructor
  · unfold SmartDemo.search_content
    by_cases hd : docs = []
    · simp [hd]
    · rw [if_neg hd]
      by_cases hq : SmartDemo.pyFindWords (pyLower q) = []
      · simp [hq]
      · rw [if_neg hq]
        have hL : (0 : ℚ) < ((SmartDemo.pyFindWords (pyLower q)).length : ℚ) := by
          have : 0 < (SmartDemo.pyFindWords (pyLower q)).length :=
            List.length_pos.2 hq
          exact_mod_cast this
        refine pairwise_filterMap (fun a b : String × Nat => b.2 ≤ a.2) _ _ ?_ _ ?_
        · intro a b x y hR hx hy
          rcases Option.map_eq_some'.1 hx with ⟨p, hp, rfl⟩
          rcases Option.map_eq_some'.1 hy with ⟨p2, hp2, rfl⟩
          exact (div_le_div_iff_of_pos_right hL).2 (by exact_mod_cast hR)
        · exact ((SmartDemo.pairwise_sortDesc _).sublist (List.take_sublist _ _))
  · intro c
    exact SmartDemo.filter_sortDesc c _

/-- Claim C8 (counterexample): on the two-document tie corpus the two results
share the normalized score one half, yet the document indexed second comes
first, because it is reached by the first query token; the claimed
first-indexed-wins tie-break fails. -/
theorem C8_cex :
    (SmartDemo.search_content tieDocs "alpha gamma" 5).map
        (fun r => (r.url, r.relevance_score)) =
      [("u2", SmartDemo.relOf 1 2), ("u1", SmartDemo.relOf 1 2)] ∧
    SmartDemo.relOf 1 2 = 1/2 ∧
    tieDocs.map (fun d => d.url) = ["u1", "u2"] := by
  refine ⟨rfl, by norm_num [SmartDemo.relOf], by decide⟩

/-- Claim C9 (amended): the excerpt cleaner is a total function (it never
raises), and its output is non-empty whenever the boilerplate-stripping phase
leaves at least one useful sentence; when it leaves none, the cleaner
degrades through the fallbacks, whose final case returns a prefix of the
cleaned—not the raw—text and can therefore be empty for a non-empty input. -/
theorem C9_amended :
    ∀ s : String, s ≠ "" →
      SmartDemo.usefulSentences (SmartDemo.cleanPhaseL s.data) ≠ [] →
      SmartDemo.clean_content s ≠ "" := by
  intro s hs hus
  obtain ⟨l⟩ := s
  intro h
  exact SmartDemo.cleanContentL_ne_nil l (fun hd => hs (by rw [hd])) hus
    (congrArg String.data h)

/-- Claim C9 (counterexample): the non-empty input consisting of the
product-name line is erased entirely by the substitution pipeline, and the
cleaner returns the empty string. -/
theorem C9_cex :
    ("Core dna\n" : String) ≠ "" ∧ SmartDemo.clean_content "Core dna\n" = "" := by
  constructor
  · decide
  · decide

/-- Claim C9 (witness): a non-empty excerpt with a useful sentence cleans to a
non-empty string. -/
theorem C9_witness :
    SmartDemo.clean_content
      "Core DNA provides management features for business customers online." ≠ "" :=
  C9_amended "Core DNA provides management features for business customers online."
    (by decide) (by decide)

/-- Claim C10 (amended): the cleaner is idempotent on every input whose
cleaned output is a fixed point of the substitution pipeline and is
reproduced by its own useful-sentence reassembly; it is not idempotent in
general, because a cleaned string can itself match a removal pattern (for
example a leading bullet marker) on the second pass. -/
theorem C10_amended :
    ∀ s : String,
      SmartDemo.cleanPhaseL (SmartDemo.clean_content s).data =
          (SmartDemo.clean_content s).data →
      SmartDemo.usefulSentences (SmartDemo.clean_content s).data ≠ [] →
      SmartDemo.joinUseful (SmartDemo.usefulSentences (SmartDemo.clean_content s).data) =
          (SmartDemo.clean_content s).data →
      SmartDemo.clean_content (SmartDemo.clean_content s) = SmartDemo.clean_content s := by
  intro s h1 h2 h3
  exact SmartDemo.cleanContent_fixed _ h1 h2 h3

/-- Claim C10 (counterexample): cleaning once turns the input into a string
with a leading bullet marker; cleaning that result strips the marker, so the
second application differs from the first. -/
theorem C10_cex :
    SmartDemo.clean_content "aaa. - bbb platform yyy zzz wwwwww qqq." =
        "- bbb platform yyy zzz wwwwww qqq." ∧
    SmartDemo.clean_content "- bbb platform yyy zzz wwwwww qqq." =
        "bbb platform yyy zzz wwwwww qqq." ∧
    SmartDemo.clean_content (SmartDemo.clean_content "aaa. - bbb platform yyy zzz wwwwww qqq.") ≠
        SmartDemo.clean_content "aaa. - bbb platform yyy zzz wwwwww qqq." := by
  refine ⟨by decide, by decide, by decide⟩

/-- Claim C10 (witness): an already-stable cleaned sentence is a fixed point
of the cleaner, so cleaning it twice equals cleaning it once. -/
theorem C10_witness :
    SmartDemo.clean_content
        (SmartDemo.clean_content
          "The platform provides management features for business users.") =
      SmartDemo.clean_content
        "The platform provides management features for business users." :=
  C10_amended "The platform provides management features for business users."
    (by decide) (by decide) (by decide)

end Chatbot
